import Mathlib

/-!
Verification of the MOTNDP line-building environment
(`src/motndp/motndp.py`), a shallow embedding of the Python source.

Conventions of the embedding:
* grid coordinates are pairs of integers (moves may leave the grid,
  exactly as in the source, which never clamps `new_location`);
* demand values, OD masks and rewards are rationals (the source uses
  numpy floats; the claims under study concern the exact arithmetic
  formulas, which the rationals realise);
* Python calls that can raise (`assert` in `_calculate_reward`, the
  `ValueError` raised by `if loc:` on a multi-element numpy array)
  are modelled by `Option`-valued functions returning `none`.

The `City` collaborator (`motndp.city`, not among the sources) is
modelled from the spec, see `City` below.
-/

namespace MOTNDP

/-- Modelled from the spec: the Grid/Demand Model collaborator (class
`City` of `motndp.city`, whose code is not among the sources).  Per the
spec it provides the grid dimensions, a vectorized bijection between 2D
grid coordinates and a linear cell index (row-major per the source
docstring: `(0,0) -> 0, (0,1) -> 1, ...`), the query
`satisfied_od_mask(segment) -> boolean mask over OD pairs`, and an
ordered collection of per-group OD demand matrices (`group_od_mx`),
one matrix per group, here flattened over the OD-pair space (summing an
elementwise product commutes with flattening). -/
structure City where
  grid_x_size : Nat
  grid_y_size : Nat
  group_od_mx : List (List ℚ)
  satisfied_od_mask : Int × Int → List ℚ

/-- Number of grid cells; the length of the one-hot location vector. -/
def City.grid_size (c : City) : Nat := c.grid_x_size * c.grid_y_size

/-- Modelled from the spec: the row-major coordinate-to-index bijection
of the Grid/Demand Model, total on all integer pairs (the source applies
it to out-of-grid candidate cells as well, inside `_update_action_mask`). -/
def City.grid_to_vector (c : City) (p : Int × Int) : Int :=
  p.1 * (c.grid_y_size : Int) + p.2

/-- The environment field `nr_groups` is `city.groups.shape[0]`; the spec
fixes one OD matrix per group, so it equals the number of OD matrices. -/
def City.nr_groups (c : City) : Nat := c.group_od_mx.length

/-- The 8 compass displacements, in the order of `_action_to_direction`:
up, up-right, right, down-right, down, down-left, left, up-left. -/
def action_to_direction : Fin 8 → Int × Int
  | 0 => (-1, 0)
  | 1 => (-1, 1)
  | 2 => (0, 1)
  | 3 => (1, 1)
  | 4 => (1, 0)
  | 5 => (1, -1)
  | 6 => (0, -1)
  | 7 => (-1, -1)

/-- The mutable attributes of the `MOTNDP` environment object, together
with the read-only `city` and `nr_stations` it was constructed with.
`rng` is the state of `self.np_random` (see `seedRng`/`randInt`). -/
structure Env where
  city : City
  nr_stations : Nat
  stations_placed : Nat
  covered_cells_vid : List Int
  covered_cells_gid : List (Int × Int)
  covered_segments : List (Int × Int)
  action_mask : List Nat
  agent_location : Int × Int
  agent_location_vid : Int
  agent_location_vector : List ℚ
  rng : Nat

/-- The observation dictionary returned by `_get_obs`. -/
structure Obs where
  location : Int × Int
  location_vid : Int
  location_vector : List ℚ
deriving DecidableEq

/-- The info dictionary returned by `_get_info`. -/
structure Info where
  segments : List (Int × Int)
  action_mask : List Nat
deriving DecidableEq

def get_obs (e : Env) : Obs :=
  ⟨e.agent_location, e.agent_location_vid, e.agent_location_vector⟩

def get_info (e : Env) : Info :=
  ⟨e.covered_segments, e.action_mask⟩

/-- Embeds `_update_agent_location`: store the new location, its linear
index, and the one-hot vector `np.zeros(grid_size); vec[vid] = 1`.
(`List.set` ignores an out-of-range index where numpy would raise or
wrap; the theorems below only invoke this on in-grid locations.) -/
def update_agent_location (e : Env) (new_location : Int × Int) : Env :=
  let vid := e.city.grid_to_vector new_location
  { e with
    agent_location := new_location
    agent_location_vid := vid
    agent_location_vector := (List.replicate e.city.grid_size (0 : ℚ)).set vid.toNat 1 }

/-- The candidate cell `location + self._action_to_direction[a]`. -/
def candidate (location : Int × Int) (a : Fin 8) : Int × Int :=
  (location.1 + (action_to_direction a).1, location.2 + (action_to_direction a).2)

/-- The mask vector computed by `_update_action_mask`: for each of the 8
directions, 1 iff the candidate cell is inside the grid (both
coordinates nonnegative, row below `grid_x_size`, column below
`grid_y_size`) and its linear index is not among `covered_cells_vid`. -/
def computeMask (c : City) (location : Int × Int) (covered_vid : List Int) : List Nat :=
  List.ofFn fun a : Fin 8 =>
    if 0 ≤ (candidate location a).1 ∧ 0 ≤ (candidate location a).2 ∧
        (candidate location a).1 < (c.grid_x_size : Int) ∧
        (candidate location a).2 < (c.grid_y_size : Int) ∧
        c.grid_to_vector (candidate location a) ∉ covered_vid
    then 1 else 0

/-- Embeds `_update_action_mask` (the `prev_action` parameter of the
source is unused there and omitted). -/
def update_action_mask (e : Env) (location : Int × Int) : Env :=
  { e with action_mask := computeMask e.city location e.covered_cells_vid }

/-- Elementwise product followed by a sum: `(g_od * sat_od_mask).sum()`. -/
def dotSum (g m : List ℚ) : ℚ := (List.zipWith (fun a b => a * b) g m).sum

/-- Embeds `_calculate_reward`.  The leading `assert self.city.group_od_mx`
fails (AssertionError, modelled by `none`) when the OD-matrix collection
is empty or missing.  Then an already-covered segment earns the zero
vector, and otherwise each group earns its masked demand sum, divided by
its total demand when `use_pct` is true (the default used by `step`). -/
def calculate_reward (e : Env) (segment : Int × Int) (use_pct : Bool) :
    Option (List ℚ) :=
  if e.city.group_od_mx = [] then none
  else if segment ∈ e.covered_segments then
    some (List.replicate e.city.group_od_mx.length 0)
  else
    let sat_od_mask := e.city.satisfied_od_mask segment
    let sat_group_ods := e.city.group_od_mx.map fun g => dotSum g sat_od_mask
    let sat_group_ods_pct :=
      e.city.group_od_mx.map fun g => dotSum g sat_od_mask / g.sum
    some (if use_pct then sat_group_ods_pct else sat_group_ods)

/-- Modelled from the spec: `reset` initializes the random source from
the seed; the start draw is a deterministic function of the seed and the
grid dimensions.  Any concrete deterministic generator realises this. -/
def seedRng (seed : Nat) : Nat := seed

/-- Modelled from the spec: one draw of `self.np_random.integers(0, bound)`,
returning the value (below `bound` whenever `bound` is positive) and the
successor generator state. -/
def randInt (rng bound : Nat) : Nat × Nat := (rng % bound, rng / bound + 1)

/-- A start location as the Python caller can pass it: a coordinate
tuple, or an already-structured numpy coordinate array. -/
inductive Loc where
  | tup : Int × Int → Loc
  | arr : Int × Int → Loc

/-- The pair returned by `reset`, along with the updated environment. -/
structure ResetResult where
  obs : Obs
  info : Info
  env : Env

/-- The tail of `reset` after the agent location is decided: place it,
reset the episode bookkeeping, recompute the mask, build obs and info. -/
def resetWith (e : Env) (p : Int × Int) : ResetResult :=
  let e1 := update_agent_location e p
  let e2 := { e1 with
    stations_placed := 1
    covered_cells_vid := [e1.city.grid_to_vector e1.agent_location]
    covered_cells_gid := [e1.agent_location]
    covered_segments := ([] : List (Int × Int)) }
  let e3 := update_action_mask e2 e2.agent_location
  ⟨get_obs e3, get_info e3, e3⟩

/-- Embeds `reset`.  A supplied tuple location is normalized and used; a
supplied numpy-array location hits `if loc:`, whose truth value test on
a multi-element array raises ValueError (modelled by `none`); with no
location the start cell is drawn from the (seeded) random source. -/
def reset (e : Env) (seed : Option Nat) (loc : Option Loc) : Option ResetResult :=
  let e0 := match seed with
    | some s => { e with rng := seedRng s }
    | none => e
  match loc with
  | some (Loc.arr _) => none
  | some (Loc.tup p) => some (resetWith e0 p)
  | none =>
    let x := randInt e0.rng e0.city.grid_x_size
    let y := randInt x.2 e0.city.grid_y_size
    some (resetWith { e0 with rng := y.2 } ((x.1 : Int), (y.1 : Int)))

/-- The candidate location `agent_location + direction` computed at the
top of `step`. -/
def nextLoc (e : Env) (action : Fin 8) : Int × Int :=
  candidate e.agent_location action

/-- The 5-tuple returned by `step`, along with the updated environment. -/
structure StepResult where
  obs : Obs
  reward : List ℚ
  terminated : Bool
  truncated : Bool
  info : Info
  env : Env

/-- Embeds `step`: move, count the station, compute the reward on the
directed segment, append both directed orderings of the segment and the
new cell, relocate the agent, recompute the mask, and decide
termination (`stations_placed >= nr_stations or np.sum(action_mask) == 0`).
`none` models the AssertionError propagating out of `_calculate_reward`. -/
def step (e : Env) (action : Fin 8) : Option StepResult :=
  let new_location := nextLoc e action
  let e1 := { e with stations_placed := e.stations_placed + 1 }
  let from_idx := e1.city.grid_to_vector e1.agent_location
  let to_idx := e1.city.grid_to_vector new_location
  match calculate_reward e1 (from_idx, to_idx) true with
  | none => none
  | some reward =>
    let e2 := { e1 with
      covered_segments := e1.covered_segments ++ [(from_idx, to_idx), (to_idx, from_idx)]
      covered_cells_vid := e1.covered_cells_vid ++ [to_idx]
      covered_cells_gid := e1.covered_cells_gid ++ [new_location] }
    let e3 := update_agent_location e2 new_location
    let e4 := update_action_mask e3 e3.agent_location
    let terminated : Bool :=
      decide (e4.nr_stations ≤ e4.stations_placed) || decide (e4.action_mask.sum = 0)
    some ⟨get_obs e4, reward, terminated, false, get_info e4, e4⟩

/-- The environment state after a successful `step` (the composition of
all the record updates `step` performs), stated once so that the
theorems below can speak about the fields of the post-state. -/
def stepEnv (e : Env) (action : Fin 8) : Env :=
  let new_location := nextLoc e action
  let from_idx := e.city.grid_to_vector e.agent_location
  let to_idx := e.city.grid_to_vector new_location
  let e2 := { e with
    stations_placed := e.stations_placed + 1
    covered_segments := e.covered_segments ++ [(from_idx, to_idx), (to_idx, from_idx)]
    covered_cells_vid := e.covered_cells_vid ++ [to_idx]
    covered_cells_gid := e.covered_cells_gid ++ [new_location] }
  let e3 := update_agent_location e2 new_location
  update_action_mask e3 e3.agent_location

/-- A concrete 3-by-3 city with one demand group of total demand 10, of
which the mask satisfies 7 units, used to instantiate the theorems. -/
def demoCity : City :=
  { grid_x_size := 3
    grid_y_size := 3
    group_od_mx := [[2, 3, 5]]
    satisfied_od_mask := fun _ => [1, 0, 1] }

/-- A freshly reset environment on `demoCity`: the agent sits on the
corner cell `(0, 0)`, which is the only covered cell. -/
def demoEnv : Env :=
  { city := demoCity
    nr_stations := 5
    stations_placed := 1
    covered_cells_vid := [0]
    covered_cells_gid := [(0, 0)]
    covered_segments := []
    action_mask := [0, 0, 1, 1, 1, 0, 0, 0]
    agent_location := (0, 0)
    agent_location_vid := 0
    agent_location_vector := [1, 0, 0, 0, 0, 0, 0, 0, 0]
    rng := 0 }

/-- A variant of `demoEnv` in which the segment between cells 0 and 1
has already been built (both directed orderings recorded). -/
def demoEnvCovered : Env :=
  { demoEnv with
    covered_segments := [(0, 1), (1, 0)]
    covered_cells_vid := [0, 1]
    covered_cells_gid := [(0, 0), (0, 1)]
    agent_location := (0, 1)
    agent_location_vid := 1
    agent_location_vector := [0, 1, 0, 0, 0, 0, 0, 0, 0] }

/-- An environment whose city has no group OD matrices configured. -/
def demoEnvNoGroups : Env :=
  { demoEnv with city := { demoCity with group_od_mx := [] } }

/-! ### Derived predicates about episodes -/

/-- A coordinate lies inside the grid. -/
def inBounds (c : City) (p : Int × Int) : Prop :=
  0 ≤ p.1 ∧ 0 ≤ p.2 ∧ p.1 < (c.grid_x_size : Int) ∧ p.2 < (c.grid_y_size : Int)

instance (c : City) (p : Int × Int) : Decidable (inBounds c p) := by
  unfold inBounds
  infer_instance

/-- Consistency of the three location views held by the environment:
the linear index matches the grid's coordinate-to-index mapping of the
coordinate location, and the one-hot vector has length `grid_size`,
holds a single 1 at the linear index, zeros elsewhere, and sums to 1. -/
def locInv (e : Env) : Prop :=
  e.agent_location_vid = e.city.grid_to_vector e.agent_location ∧
  e.agent_location_vector.length = e.city.grid_size ∧
  e.agent_location_vector.getD e.agent_location_vid.toNat 0 = 1 ∧
  (∀ j, j < e.city.grid_size → j ≠ e.agent_location_vid.toNat →
    e.agent_location_vector.getD j 0 = 0) ∧
  e.agent_location_vector.sum = 1

/-- Every action of the list is marked legal (mask entry 1) by the
action mask current at the time it is taken, and every step returns. -/
def legalRun : Env → List (Fin 8) → Bool
  | _, [] => true
  | e, a :: rest =>
    (e.action_mask.getD a.val 0 == 1) &&
      match step e a with
      | some r => legalRun r.env rest
      | none => false

/-- Run a list of actions through `step`, returning the final
environment (or `none` if some step raises). -/
def runEnv : Env → List (Fin 8) → Option Env
  | e, [] => some e
  | e, a :: rest =>
    match step e a with
    | some r => runEnv r.env rest
    | none => none

/-- The sequence of cells the agent moves onto, in visitation order. -/
def visitLocs : Env → List (Fin 8) → List (Int × Int)
  | _, [] => []
  | e, a :: rest =>
    nextLoc e a ::
      match step e a with
      | some r => visitLocs r.env rest
      | none => []

/-- The episode bookkeeping invariant maintained by `reset` and `step`:
the stored action mask is the one recomputed for the current location
against the covered cells, the index view of the covered cells is the
image of the coordinate view under the grid's coordinate-to-index
mapping, and the index view has no duplicates. -/
def episodeInv (e : Env) : Prop :=
  e.action_mask = computeMask e.city e.agent_location e.covered_cells_vid ∧
  e.covered_cells_vid = e.covered_cells_gid.map e.city.grid_to_vector ∧
  e.covered_cells_vid.Nodup

/-! ### Basic lemmas about the embedded operations -/

lemma getD_ofFn_lt {α : Type} {n : Nat} (f : Fin n → α) (d : α) (i : Nat) (h : i < n) :
    (List.ofFn f).getD i d = f ⟨i, h⟩ := by
  have h2 : i < (List.ofFn f).length := by simpa using h
  rw [List.getD_eq_getElem _ _ h2, List.getElem_ofFn]

lemma getD_map_of_lt {α β : Type} (f : α → β) (l : List α) (i : Nat) (d1 : α) (d2 : β)
    (h : i < l.length) : (l.map f).getD i d2 = f (l.getD i d1) := by
  have h2 : i < (l.map f).length := by simpa using h
  rw [List.getD_eq_getElem _ _ h2, List.getD_eq_getElem _ _ h, List.getElem_map]

lemma computeMask_length (c : City) (loc : Int × Int) (cov : List Int) :
    (computeMask c loc cov).length = 8 := by
  simp [computeMask]

lemma computeMask_getD (c : City) (loc : Int × Int) (cov : List Int) (a : Fin 8) :
    (computeMask c loc cov).getD a.val 0 =
      if 0 ≤ (candidate loc a).1 ∧ 0 ≤ (candidate loc a).2 ∧
          (candidate loc a).1 < (c.grid_x_size : Int) ∧
          (candidate loc a).2 < (c.grid_y_size : Int) ∧
          c.grid_to_vector (candidate loc a) ∉ cov
      then 1 else 0 :=
  getD_ofFn_lt _ 0 a.val a.isLt

lemma computeMask_getD_one_iff (c : City) (loc : Int × Int) (cov : List Int) (a : Fin 8) :
    (computeMask c loc cov).getD a.val 0 = 1 ↔
      (0 ≤ (candidate loc a).1 ∧ 0 ≤ (candidate loc a).2 ∧
        (candidate loc a).1 < (c.grid_x_size : Int) ∧
        (candidate loc a).2 < (c.grid_y_size : Int) ∧
        c.grid_to_vector (candidate loc a) ∉ cov) := by
  rw [computeMask_getD]
  split
  next h => simp [h]
  next h => simp [h]

lemma computeMask_getD_zero_iff (c : City) (loc : Int × Int) (cov : List Int) (a : Fin 8) :
    (computeMask c loc cov).getD a.val 0 = 0 ↔
      ¬ (0 ≤ (candidate loc a).1 ∧ 0 ≤ (candidate loc a).2 ∧
        (candidate loc a).1 < (c.grid_x_size : Int) ∧
        (candidate loc a).2 < (c.grid_y_size : Int) ∧
        c.grid_to_vector (candidate loc a) ∉ cov) := by
  rw [computeMask_getD]
  split
  next h => simp [h]
  next h => simp [h]

lemma step_eq (e : Env) (a : Fin 8) :
    step e a =
      (calculate_reward { e with stations_placed := e.stations_placed + 1 }
          (e.city.grid_to_vector e.agent_location,
            e.city.grid_to_vector (nextLoc e a)) true).map
        fun reward =>
          { obs := get_obs (stepEnv e a)
            reward := reward
            terminated :=
              decide ((stepEnv e a).nr_stations ≤ (stepEnv e a).stations_placed) ||
                decide ((stepEnv e a).action_mask.sum = 0)
            truncated := false
            info := get_info (stepEnv e a)
            env := stepEnv e a } := by
  cases hcr : calculate_reward { e with stations_placed := e.stations_placed + 1 }
      (e.city.grid_to_vector e.agent_location,
        e.city.grid_to_vector (nextLoc e a)) true with
  | none => simp [step, hcr]
  | some reward => simp [step, stepEnv, hcr, update_agent_location, update_action_mask,
      get_obs, get_info]

lemma stepEnv_city (e : Env) (a : Fin 8) : (stepEnv e a).city = e.city := rfl

lemma stepEnv_nr_stations (e : Env) (a : Fin 8) :
    (stepEnv e a).nr_stations = e.nr_stations := rfl

lemma stepEnv_stations_placed (e : Env) (a : Fin 8) :
    (stepEnv e a).stations_placed = e.stations_placed + 1 := rfl

lemma stepEnv_covered_segments (e : Env) (a : Fin 8) :
    (stepEnv e a).covered_segments =
      e.covered_segments ++
        [(e.city.grid_to_vector e.agent_location, e.city.grid_to_vector (nextLoc e a)),
          (e.city.grid_to_vector (nextLoc e a), e.city.grid_to_vector e.agent_location)] := rfl

lemma stepEnv_covered_cells_vid (e : Env) (a : Fin 8) :
    (stepEnv e a).covered_cells_vid =
      e.covered_cells_vid ++ [e.city.grid_to_vector (nextLoc e a)] := rfl

lemma stepEnv_covered_cells_gid (e : Env) (a : Fin 8) :
    (stepEnv e a).covered_cells_gid = e.covered_cells_gid ++ [nextLoc e a] := rfl

lemma stepEnv_agent_location (e : Env) (a : Fin 8) :
    (stepEnv e a).agent_location = nextLoc e a := rfl

lemma stepEnv_action_mask (e : Env) (a : Fin 8) :
    (stepEnv e a).action_mask =
      computeMask e.city (nextLoc e a)
        (e.covered_cells_vid ++ [e.city.grid_to_vector (nextLoc e a)]) := rfl

lemma calculate_reward_covered (e : Env) (seg : Int × Int) (b : Bool)
    (hgm : e.city.group_od_mx ≠ []) (hseg : seg ∈ e.covered_segments) :
    calculate_reward e seg b = some (List.replicate e.city.nr_groups 0) := by
  unfold calculate_reward City.nr_groups
  rw [if_neg hgm, if_pos hseg]

lemma calculate_reward_fresh (e : Env) (seg : Int × Int)
    (hgm : e.city.group_od_mx ≠ []) (hseg : seg ∉ e.covered_segments) :
    calculate_reward e seg true =
      some (e.city.group_od_mx.map fun g =>
        dotSum g (e.city.satisfied_od_mask seg) / g.sum) := by
  unfold calculate_reward
  rw [if_neg hgm, if_neg hseg]
  rfl

lemma calculate_reward_isSome (e : Env) (seg : Int × Int) (b : Bool)
    (hgm : e.city.group_od_mx ≠ []) :
    ∃ rw1, calculate_reward e seg b = some rw1 := by
  unfold calculate_reward
  rw [if_neg hgm]
  by_cases hseg : seg ∈ e.covered_segments
  · exact ⟨_, by rw [if_pos hseg]⟩
  · exact ⟨_, by rw [if_neg hseg]⟩

lemma calculate_reward_empty (e : Env) (seg : Int × Int) (b : Bool)
    (hgm : e.city.group_od_mx = []) : calculate_reward e seg b = none := by
  unfold calculate_reward
  rw [if_pos hgm]

lemma step_isSome (e : Env) (a : Fin 8) (hgm : e.city.group_od_mx ≠ []) :
    ∃ r, step e a = some r := by
  rw [step_eq]
  obtain ⟨rw1, hrw⟩ := calculate_reward_isSome
    { e with stations_placed := e.stations_placed + 1 }
    (e.city.grid_to_vector e.agent_location, e.city.grid_to_vector (nextLoc e a)) true hgm
  exact ⟨_, by rw [hrw]; rfl⟩

lemma step_none (e : Env) (a : Fin 8) (hgm : e.city.group_od_mx = []) :
    step e a = none := by
  rw [step_eq, calculate_reward_empty { e with stations_placed := e.stations_placed + 1 }
    (e.city.grid_to_vector e.agent_location, e.city.grid_to_vector (nextLoc e a)) true hgm]
  rfl

lemma step_env_eq (e : Env) (a : Fin 8) (r : StepResult) (h : step e a = some r) :
    r.env = stepEnv e a ∧ r.truncated = false ∧
    r.terminated =
      (decide ((stepEnv e a).nr_stations ≤ (stepEnv e a).stations_placed) ||
        decide ((stepEnv e a).action_mask.sum = 0)) := by
  rw [step_eq] at h
  cases hcr : calculate_reward { e with stations_placed := e.stations_placed + 1 }
      (e.city.grid_to_vector e.agent_location,
        e.city.grid_to_vector (nextLoc e a)) true with
  | none => rw [hcr] at h; cases h
  | some reward =>
    rw [hcr] at h
    cases h
    exact ⟨rfl, rfl, rfl⟩

/-! ### Bounds on the reward entries -/

lemma dotSum_nil (m : List ℚ) : dotSum [] m = 0 := by simp [dotSum]

lemma dotSum_nil_right (g : List ℚ) : dotSum g [] = 0 := by
  cases g <;> simp [dotSum]

lemma dotSum_cons (a b : ℚ) (g m : List ℚ) :
    dotSum (a :: g) (b :: m) = a * b + dotSum g m := by
  simp [dotSum]

lemma dotSum_nonneg (g : List ℚ) : ∀ m : List ℚ, (∀ x ∈ g, 0 ≤ x) →
    (∀ y ∈ m, y = 0 ∨ y = 1) → 0 ≤ dotSum g m := by
  induction g with
  | nil => intro m _ _; simp [dotSum_nil]
  | cons a g ih =>
    intro m hg hm
    cases m with
    | nil => simp [dotSum_nil_right]
    | cons b m =>
      rw [dotSum_cons]
      have ha : 0 ≤ a := hg a (by simp)
      have hab : 0 ≤ a * b := by
        rcases hm b (by simp) with h | h <;> simp [h, ha]
      have htail : 0 ≤ dotSum g m :=
        ih m (fun x hx => hg x (by simp [hx])) (fun y hy => hm y (by simp [hy]))
      linarith

lemma dotSum_le_sum (g : List ℚ) : ∀ m : List ℚ, (∀ x ∈ g, 0 ≤ x) →
    (∀ y ∈ m, y = 0 ∨ y = 1) → dotSum g m ≤ g.sum := by
  induction g with
  | nil => intro m _ _; simp [dotSum_nil]
  | cons a g ih =>
    intro m hg hm
    have ha : 0 ≤ a := hg a (by simp)
    have hgtail : ∀ x ∈ g, 0 ≤ x := fun x hx => hg x (by simp [hx])
    cases m with
    | nil =>
      rw [dotSum_nil_right, List.sum_cons]
      have := List.sum_nonneg hgtail
      linarith
    | cons b m =>
      rw [dotSum_cons, List.sum_cons]
      have hab : a * b ≤ a := by
        rcases hm b (by simp) with h | h <;> simp [h, ha]
      have htail : dotSum g m ≤ g.sum :=
        ih m hgtail (fun y hy => hm y (by simp [hy]))
      linarith

lemma calculate_reward_bounds (e : Env) (seg : Int × Int) (rw1 : List ℚ)
    (h : calculate_reward e seg true = some rw1)
    (hg : ∀ g ∈ e.city.group_od_mx, (∀ x ∈ g, 0 ≤ x) ∧ 0 < g.sum)
    (hm : ∀ y ∈ e.city.satisfied_od_mask seg, y = 0 ∨ y = 1) :
    ∀ x ∈ rw1, 0 ≤ x ∧ x ≤ 1 := by
  by_cases hgm : e.city.group_od_mx = []
  · rw [calculate_reward_empty e seg true hgm] at h
    cases h
  by_cases hseg : seg ∈ e.covered_segments
  · rw [calculate_reward_covered e seg true hgm hseg] at h
    cases h
    intro x hx
    rw [List.eq_of_mem_replicate hx]
    constructor <;> norm_num
  · rw [calculate_reward_fresh e seg hgm hseg] at h
    cases h
    intro x hx
    obtain ⟨g, hgmem, rfl⟩ := List.mem_map.mp hx
    obtain ⟨hpos, hsum⟩ := hg g hgmem
    constructor
    · exact div_nonneg (dotSum_nonneg g _ hpos hm) (le_of_lt hsum)
    · rw [div_le_one hsum]
      exact dotSum_le_sum g _ hpos hm

lemma step_reward_eq (e : Env) (a : Fin 8) (r : StepResult) (h : step e a = some r) :
    calculate_reward { e with stations_placed := e.stations_placed + 1 }
      (e.city.grid_to_vector e.agent_location, e.city.grid_to_vector (nextLoc e a)) true =
      some r.reward := by
  rw [step_eq] at h
  cases hcr : calculate_reward { e with stations_placed := e.stations_placed + 1 }
      (e.city.grid_to_vector e.agent_location,
        e.city.grid_to_vector (nextLoc e a)) true with
  | none => rw [hcr] at h; cases h
  | some rw1 =>
    rw [hcr] at h
    cases h
    rfl

/-! ### The one-hot location invariant -/

lemma grid_to_vector_bounds (c : City) (p : Int × Int) (h : inBounds c p) :
    0 ≤ c.grid_to_vector p ∧ c.grid_to_vector p < (c.grid_size : Int) := by
  obtain ⟨h1, h2, h3, h4⟩ := h
  have hy : (0 : Int) ≤ (c.grid_y_size : Int) := by positivity
  constructor
  · have := mul_nonneg h1 hy
    unfold City.grid_to_vector
    linarith
  · unfold City.grid_to_vector City.grid_size
    push_cast
    have hstep : p.1 * (c.grid_y_size : Int) + p.2 < (p.1 + 1) * (c.grid_y_size : Int) := by
      linarith [mul_one p.1]
    have hmul : (p.1 + 1) * (c.grid_y_size : Int) ≤
        (c.grid_x_size : Int) * (c.grid_y_size : Int) :=
      mul_le_mul_of_nonneg_right (by linarith) hy
    linarith

lemma set_replicate_getD_self (n k : Nat) (h : k < n) :
    ((List.replicate n (0 : ℚ)).set k 1).getD k 0 = 1 := by
  rw [List.getD_eq_getElem _ _ (by simpa using h), List.getElem_set]
  simp

lemma set_replicate_getD_ne (n k j : Nat) (hj : j < n) (hne : j ≠ k) :
    ((List.replicate n (0 : ℚ)).set k 1).getD j 0 = 0 := by
  rw [List.getD_eq_getElem _ _ (by simpa using hj), List.getElem_set]
  have hne2 : ¬ k = j := fun hkj => hne hkj.symm
  simp [hne2]

lemma set_replicate_sum (n : Nat) : ∀ k, k < n →
    ((List.replicate n (0 : ℚ)).set k 1).sum = 1 := by
  induction n with
  | zero => intro k hk; exact absurd hk (by omega)
  | succ n ih =>
    intro k hk
    cases k with
    | zero => simp [List.replicate_succ]
    | succ k => simp [List.replicate_succ, ih k (by omega)]

lemma update_agent_location_locInv (e : Env) (p : Int × Int)
    (h : inBounds e.city p) : locInv (update_agent_location e p) := by
  obtain ⟨hnn, hlt⟩ := grid_to_vector_bounds e.city p h
  have hk : (e.city.grid_to_vector p).toNat < e.city.grid_size := by
    rw [Int.toNat_lt hnn]
    exact hlt
  refine ⟨rfl, by simp [update_agent_location], ?_, ?_, ?_⟩
  · exact set_replicate_getD_self _ _ hk
  · intro j hj hne
    exact set_replicate_getD_ne _ _ j hj hne
  · exact set_replicate_sum _ _ hk

lemma resetWith_locInv (e : Env) (p : Int × Int) (h : inBounds e.city p) :
    locInv (resetWith e p).env :=
  update_agent_location_locInv e p h

lemma randInt_fst (rng bound : Nat) : (randInt rng bound).1 = rng % bound := rfl

lemma reset_none_eq (e : Env) :
    reset e none none =
      some (resetWith
        { e with rng := (randInt (randInt e.rng e.city.grid_x_size).2 e.city.grid_y_size).2 }
        (((randInt e.rng e.city.grid_x_size).1 : Int),
          ((randInt (randInt e.rng e.city.grid_x_size).2 e.city.grid_y_size).1 : Int))) := rfl

lemma stepEnv_locInv (e : Env) (a : Fin 8) (h : inBounds e.city (nextLoc e a)) :
    locInv (stepEnv e a) :=
  update_agent_location_locInv
    { e with
      stations_placed := e.stations_placed + 1
      covered_segments := e.covered_segments ++
        [(e.city.grid_to_vector e.agent_location, e.city.grid_to_vector (nextLoc e a)),
          (e.city.grid_to_vector (nextLoc e a), e.city.grid_to_vector e.agent_location)]
      covered_cells_vid := e.covered_cells_vid ++ [e.city.grid_to_vector (nextLoc e a)]
      covered_cells_gid := e.covered_cells_gid ++ [nextLoc e a] }
    (nextLoc e a) h

/-! ### The episode bookkeeping invariant -/

lemma resetWith_episodeInv (e : Env) (p : Int × Int) :
    episodeInv (resetWith e p).env ∧
    (resetWith e p).env.covered_cells_gid = [(resetWith e p).env.agent_location] :=
  ⟨⟨rfl, rfl, List.nodup_singleton _⟩, rfl⟩

lemma reset_episodeInv (e : Env) (seed : Option Nat) (loc : Option Loc)
    (res : ResetResult) (h : reset e seed loc = some res) :
    episodeInv res.env ∧ res.env.covered_cells_gid = [res.env.agent_location] := by
  cases loc with
  | none =>
    cases h
    exact resetWith_episodeInv _ _
  | some lp =>
    cases lp with
    | tup p =>
      cases h
      exact resetWith_episodeInv _ _
    | arr p => cases h

lemma stepEnv_episodeInv (e : Env) (a : Fin 8)
    (hinv : episodeInv e) (hlegal : e.action_mask.getD a.val 0 = 1) :
    episodeInv (stepEnv e a) := by
  obtain ⟨hmask, hmap, hnd⟩ := hinv
  have hcond := (computeMask_getD_one_iff e.city e.agent_location e.covered_cells_vid a).mp
    (by rw [← hmask]; exact hlegal)
  have hnotmem : e.city.grid_to_vector (nextLoc e a) ∉ e.covered_cells_vid :=
    hcond.2.2.2.2
  refine ⟨rfl, ?_, ?_⟩
  · rw [stepEnv_covered_cells_vid, stepEnv_covered_cells_gid, stepEnv_city, hmap]
    simp
  · rw [stepEnv_covered_cells_vid]
    simp [List.nodup_append, hnd, hnotmem]

lemma runEnv_episodeInv (as : List (Fin 8)) : ∀ (e e2 : Env),
    episodeInv e → legalRun e as = true → runEnv e as = some e2 →
    episodeInv e2 ∧ e2.covered_cells_gid = e.covered_cells_gid ++ visitLocs e as := by
  induction as with
  | nil =>
    intro e e2 hinv _ hrun
    cases hrun
    exact ⟨hinv, by simp [visitLocs]⟩
  | cons a rest ih =>
    intro e e2 hinv hlegal hrun
    cases hstep : step e a with
    | none => simp [runEnv, hstep] at hrun
    | some r =>
      simp only [legalRun, hstep, Bool.and_eq_true, beq_iff_eq] at hlegal
      obtain ⟨h1, h2⟩ := hlegal
      simp only [runEnv, hstep] at hrun
      obtain ⟨henv, -, -⟩ := step_env_eq e a r hstep
      have hinv2 : episodeInv r.env := by
        rw [henv]
        exact stepEnv_episodeInv e a hinv h1
      obtain ⟨hinv3, hgid⟩ := ih r.env e2 hinv2 h2 hrun
      refine ⟨hinv3, ?_⟩
      rw [hgid,
        show r.env.covered_cells_gid = e.covered_cells_gid ++ [nextLoc e a] from
          by rw [henv, stepEnv_covered_cells_gid]]
      simp [visitLocs, hstep, List.append_assoc]

/-! ### The claims -/

/-- C1: whenever `step` returns, its `terminated` flag is true iff, after
the step's updates, the station count has reached the budget or every
entry of the recomputed action mask (a 0/1 vector of length 8) is 0;
and its `truncated` flag is false. -/
theorem c1_step_termination (e : Env) (a : Fin 8) (r : StepResult)
    (h : step e a = some r) :
    (r.terminated = true ↔
      (r.env.nr_stations ≤ r.env.stations_placed ∨ ∀ x ∈ r.env.action_mask, x = 0)) ∧
    r.env.action_mask.length = 8 ∧
    r.truncated = false := by
  obtain ⟨henv, htrunc, hterm⟩ := step_env_eq e a r h
  refine ⟨?_, ?_, htrunc⟩
  · rw [hterm, henv, Bool.or_eq_true, decide_eq_true_eq, decide_eq_true_eq,
      List.sum_eq_zero_iff]
  · rw [henv, stepEnv_action_mask, computeMask_length]

theorem c1_step_termination_witness :
    ∃ r, step demoEnv 2 = some r ∧
      (r.terminated = true ↔
        (r.env.nr_stations ≤ r.env.stations_placed ∨ ∀ x ∈ r.env.action_mask, x = 0)) ∧
      r.env.action_mask.length = 8 ∧
      r.truncated = false :=
  ⟨(step demoEnv 2).get (by decide), (Option.some_get _).symm,
    c1_step_termination demoEnv 2 _ (Option.some_get _).symm⟩

/-- C2: when the exact directed segment is already a member of
`covered_segments`, `_calculate_reward` returns the zero vector of
length `nr_groups` (for either value of the `use_pct` flag, whose test
comes after the membership test); and since `step` appends both directed
orderings of the traversed segment, re-traversing a just-traversed
segment in either direction earns the zero vector. -/
theorem c2_covered_segment_zero_reward (e : Env) (hgm : e.city.group_od_mx ≠ []) :
    (∀ seg ∈ e.covered_segments, ∀ b,
      calculate_reward e seg b = some (List.replicate e.city.nr_groups 0)) ∧
    (∀ a r, step e a = some r → ∀ b,
      calculate_reward r.env
          (e.city.grid_to_vector e.agent_location, e.city.grid_to_vector (nextLoc e a)) b =
        some (List.replicate e.city.nr_groups 0) ∧
      calculate_reward r.env
          (e.city.grid_to_vector (nextLoc e a), e.city.grid_to_vector e.agent_location) b =
        some (List.replicate e.city.nr_groups 0)) := by
  constructor
  · intro seg hseg b
    exact calculate_reward_covered e seg b hgm hseg
  · intro a r h b
    obtain ⟨henv, -, -⟩ := step_env_eq e a r h
    rw [henv]
    constructor
    · exact calculate_reward_covered _ _ b hgm
        (by rw [stepEnv_covered_segments]; simp)
    · exact calculate_reward_covered _ _ b hgm
        (by rw [stepEnv_covered_segments]; simp)

theorem c2_covered_segment_zero_reward_witness :
    calculate_reward demoEnvCovered (0, 1) true =
      some (List.replicate demoEnvCovered.city.nr_groups 0) :=
  (c2_covered_segment_zero_reward demoEnvCovered (by decide)).1 (0, 1) (by decide) true

/-- C3: on a segment not yet covered, the reward vector has one entry
per group, and entry `i` is the masked demand sum of group `i` divided
by that group's total demand. -/
theorem c3_reward_formula (e : Env) (seg : Int × Int)
    (hseg : seg ∉ e.covered_segments) (i : Nat) (hi : i < e.city.nr_groups) :
    ∃ rw1, calculate_reward e seg true = some rw1 ∧
      rw1.length = e.city.nr_groups ∧
      rw1.getD i 0 =
        dotSum (e.city.group_od_mx.getD i []) (e.city.satisfied_od_mask seg) /
          (e.city.group_od_mx.getD i []).sum := by
  have hgm : e.city.group_od_mx ≠ [] := by
    intro hempty
    rw [City.nr_groups, hempty] at hi
    exact absurd hi (by simp)
  refine ⟨_, calculate_reward_fresh e seg hgm hseg, by simp [City.nr_groups], ?_⟩
  exact getD_map_of_lt _ _ i [] 0 hi

theorem c3_reward_formula_witness :
    ∃ rw1, calculate_reward demoEnv (0, 1) true = some rw1 ∧
      rw1.length = demoEnv.city.nr_groups ∧
      rw1.getD 0 0 =
        dotSum (demoEnv.city.group_od_mx.getD 0 []) (demoEnv.city.satisfied_od_mask (0, 1)) /
          (demoEnv.city.group_od_mx.getD 0 []).sum :=
  c3_reward_formula demoEnv (0, 1) (by decide) 0 (by decide)

/-- C5: each of the 8 entries of the recomputed action mask is 1 iff the
corresponding candidate cell has nonnegative coordinates, row below the
grid's row count, column below the grid's column count, and a linear
index not among the covered cells; otherwise it is 0. -/
theorem c5_action_mask_rule (e : Env) (loc : Int × Int) (a : Fin 8) :
    (((update_action_mask e loc).action_mask).getD a.val 0 = 1 ↔
      (0 ≤ (candidate loc a).1 ∧ 0 ≤ (candidate loc a).2 ∧
        (candidate loc a).1 < (e.city.grid_x_size : Int) ∧
        (candidate loc a).2 < (e.city.grid_y_size : Int) ∧
        e.city.grid_to_vector (candidate loc a) ∉ e.covered_cells_vid)) ∧
    (((update_action_mask e loc).action_mask).getD a.val 0 = 0 ↔
      ¬ (0 ≤ (candidate loc a).1 ∧ 0 ≤ (candidate loc a).2 ∧
        (candidate loc a).1 < (e.city.grid_x_size : Int) ∧
        (candidate loc a).2 < (e.city.grid_y_size : Int) ∧
        e.city.grid_to_vector (candidate loc a) ∉ e.covered_cells_vid)) :=
  ⟨computeMask_getD_one_iff e.city loc e.covered_cells_vid a,
    computeMask_getD_zero_iff e.city loc e.covered_cells_vid a⟩

/-- C6: a start location supplied to `reset` as a coordinate tuple is
normalized and becomes the agent location of the returned observation;
but a start location supplied as a numpy coordinate array makes `reset`
raise (the `if loc:` truth-value test on a multi-element array), so the
array form never reaches `_update_agent_location`. -/
theorem c6_reset_start_location (e : Env) (seed : Option Nat) (p : Int × Int) :
    (∃ res, reset e seed (some (Loc.tup p)) = some res ∧
      res.env.agent_location = p ∧ res.obs.location = p) ∧
    reset e seed (some (Loc.arr p)) = none := by
  cases seed with
  | none => exact ⟨⟨_, rfl, rfl, rfl⟩, rfl⟩
  | some s => exact ⟨⟨_, rfl, rfl, rfl⟩, rfl⟩

/-- C9: `_calculate_reward` (and hence `step`) fails on its leading
assertion exactly when the Grid/Demand Model's per-group OD matrices
are missing or empty — and it does so before consulting
`satisfied_od_mask` at all (replacing the mask query changes nothing);
with non-empty group data neither call fails. -/
theorem c9_assert_on_empty_groups (e : Env) (seg : Int × Int) (b : Bool) (a : Fin 8) :
    (e.city.group_od_mx = [] →
      calculate_reward e seg b = none ∧
      step e a = none ∧
      ∀ f, calculate_reward
        { e with city := { e.city with satisfied_od_mask := f } } seg b = none) ∧
    (e.city.group_od_mx ≠ [] →
      (∃ rw1, calculate_reward e seg b = some rw1) ∧ ∃ r, step e a = some r) := by
  constructor
  · intro hgm
    exact ⟨calculate_reward_empty e seg b hgm, step_none e a hgm,
      fun f => calculate_reward_empty _ seg b hgm⟩
  · intro hgm
    exact ⟨calculate_reward_isSome e seg b hgm, step_isSome e a hgm⟩

theorem c9_assert_on_empty_groups_witness :
    (calculate_reward demoEnvNoGroups (0, 1) true = none ∧
      step demoEnvNoGroups 2 = none) ∧
    (∃ rw1, calculate_reward demoEnv (0, 1) true = some rw1) ∧
    (∃ r, step demoEnv 2 = some r) :=
  ⟨⟨((c9_assert_on_empty_groups demoEnvNoGroups (0, 1) true 2).1 (by decide)).1,
      ((c9_assert_on_empty_groups demoEnvNoGroups (0, 1) true 2).1 (by decide)).2.1⟩,
    (c9_assert_on_empty_groups demoEnv (0, 1) true 2).2 (by decide)⟩

/-- C10: two seeded `reset` calls with no explicit start location, on
environments sharing the same Grid/Demand Model and station budget but
with arbitrary (and possibly different) episode state and generator
state, return identical results — in particular identical start
locations and observations. -/
theorem c10_seeded_reset_deterministic (c : City) (n s : Nat)
    (sp1 sp2 : Nat) (cv1 cv2 : List Int) (cg1 cg2 cs1 cs2 : List (Int × Int))
    (am1 am2 : List Nat) (al1 al2 : Int × Int) (v1 v2 : Int)
    (vec1 vec2 : List ℚ) (r1 r2 : Nat) :
    reset ⟨c, n, sp1, cv1, cg1, cs1, am1, al1, v1, vec1, r1⟩ (some s) none =
      reset ⟨c, n, sp2, cv2, cg2, cs2, am2, al2, v2, vec2, r2⟩ (some s) none := rfl

/-- C4: whenever `step` returns, under the precondition that every
per-group OD demand matrix has nonnegative entries with positive total
sum and that `satisfied_od_mask` only returns 0/1 entries, every entry
of the returned reward vector lies in the closed interval [0, 1]. -/
theorem c4_reward_in_unit_interval (e : Env) (a : Fin 8) (r : StepResult)
    (h : step e a = some r)
    (hg : ∀ g ∈ e.city.group_od_mx, (∀ x ∈ g, 0 ≤ x) ∧ 0 < g.sum)
    (hm : ∀ seg, ∀ y ∈ e.city.satisfied_od_mask seg, y = 0 ∨ y = 1) :
    ∀ x ∈ r.reward, 0 ≤ x ∧ x ≤ 1 :=
  calculate_reward_bounds { e with stations_placed := e.stations_placed + 1 }
    (e.city.grid_to_vector e.agent_location, e.city.grid_to_vector (nextLoc e a))
    r.reward (step_reward_eq e a r h) hg (hm _)

/-- C7: along any episode in which every action taken is marked legal
by the action mask current at that moment, both covered-cells views
(the linear-index view and the coordinate view) are duplicate-free
after `reset` and after every `step`, the index view stays the image of
the coordinate view, and the coordinate view lists the start cell
followed by the visited cells in visitation order. -/
theorem c7_covered_cells_nodup (e : Env) (seed : Option Nat) (loc : Option Loc)
    (res : ResetResult) (hreset : reset e seed loc = some res)
    (as : List (Fin 8)) (hlegal : legalRun res.env as = true)
    (e2 : Env) (hrun : runEnv res.env as = some e2) :
    e2.covered_cells_vid.Nodup ∧ e2.covered_cells_gid.Nodup ∧
    e2.covered_cells_vid = e2.covered_cells_gid.map e2.city.grid_to_vector ∧
    e2.covered_cells_gid = res.env.agent_location :: visitLocs res.env as := by
  obtain ⟨hinv0, hgid0⟩ := reset_episodeInv e seed loc res hreset
  obtain ⟨⟨hmask2, hmap2, hnd2⟩, hgid⟩ := runEnv_episodeInv as res.env e2 hinv0 hlegal hrun
  refine ⟨hnd2, ?_, hmap2, ?_⟩
  · have hmapped : (e2.covered_cells_gid.map e2.city.grid_to_vector).Nodup := hmap2 ▸ hnd2
    exact List.Nodup.of_map _ hmapped
  · rw [hgid, hgid0]
    simp

theorem c7_covered_cells_nodup_witness :
    ∃ res, reset demoEnv none (some (Loc.tup (0, 0))) = some res ∧
      legalRun res.env [2, 4] = true ∧
      ∃ e2, runEnv res.env [2, 4] = some e2 ∧
        e2.covered_cells_vid.Nodup ∧ e2.covered_cells_gid.Nodup ∧
        e2.covered_cells_vid = e2.covered_cells_gid.map e2.city.grid_to_vector ∧
        e2.covered_cells_gid = res.env.agent_location :: visitLocs res.env [2, 4] := by
  refine ⟨(reset demoEnv none (some (Loc.tup (0, 0)))).get (by decide),
    (Option.some_get _).symm, by decide, ?_⟩
  refine ⟨(runEnv ((reset demoEnv none (some (Loc.tup (0, 0)))).get (by decide)).env
      [2, 4]).get (by decide), (Option.some_get _).symm, ?_⟩
  exact c7_covered_cells_nodup demoEnv none (some (Loc.tup (0, 0))) _
    (Option.some_get _).symm [2, 4] (by decide) _ (Option.some_get _).symm

/-- C8: after a `reset` onto an in-grid start location (supplied or
randomly drawn from a grid with positive dimensions) and after a `step`
whose destination is in-grid, the agent's linear index equals the
grid's coordinate-to-index mapping of the agent's coordinates, and the
one-hot vector has length `grid_size` with a single 1 at that index
(entries summing to 1). -/
theorem c8_location_views_consistent :
    (∀ (e : Env) (seed : Option Nat) (p : Int × Int), inBounds e.city p →
      ∀ res, reset e seed (some (Loc.tup p)) = some res → locInv res.env) ∧
    (∀ (e : Env) (seed : Option Nat),
      0 < e.city.grid_x_size → 0 < e.city.grid_y_size →
      ∀ res, reset e seed none = some res → locInv res.env) ∧
    (∀ (e : Env) (a : Fin 8) (r : StepResult), step e a = some r →
      inBounds e.city (nextLoc e a) → locInv r.env) := by
  refine ⟨?_, ?_, ?_⟩
  · intro e seed p hp res h
    cases seed with
    | none => cases h; exact resetWith_locInv e p hp
    | some s => cases h; exact resetWith_locInv _ p hp
  · intro e seed hx hy res h
    obtain ⟨e0, hc, heq⟩ : ∃ e0 : Env, e0.city = e.city ∧
        reset e seed none = reset e0 none none := by
      cases seed with
      | none => exact ⟨e, rfl, rfl⟩
      | some s => exact ⟨{ e with rng := seedRng s }, rfl, rfl⟩
    rw [heq, reset_none_eq] at h
    cases h
    refine resetWith_locInv _ _
      ⟨Int.natCast_nonneg _, Int.natCast_nonneg _, ?_, ?_⟩
    · dsimp only
      rw [hc, randInt_fst]
      exact_mod_cast Nat.mod_lt _ hx
    · dsimp only
      rw [hc, randInt_fst]
      exact_mod_cast Nat.mod_lt _ hy
  · intro e a r h hb
    obtain ⟨henv, -, -⟩ := step_env_eq e a r h
    rw [henv]
    exact stepEnv_locInv e a hb

theorem c8_location_views_consistent_witness :
    (∃ res, reset demoEnv none (some (Loc.tup (1, 1))) = some res ∧ locInv res.env) ∧
    (∃ res, reset demoEnv (some 7) none = some res ∧ locInv res.env) ∧
    (∃ r, step demoEnv 2 = some r ∧ locInv r.env) :=
  ⟨⟨(reset demoEnv none (some (Loc.tup (1, 1)))).get (by decide),
      (Option.some_get _).symm,
      c8_location_views_consistent.1 demoEnv none (1, 1) (by decide) _
        (Option.some_get _).symm⟩,
    ⟨(reset demoEnv (some 7) none).get (by decide),
      (Option.some_get _).symm,
      c8_location_views_consistent.2.1 demoEnv (some 7) (by decide) (by decide) _
        (Option.some_get _).symm⟩,
    ⟨(step demoEnv 2).get (by decide),
      (Option.some_get _).symm,
      c8_location_views_consistent.2.2 demoEnv 2 _
        (Option.some_get _).symm (by decide)⟩⟩

theorem c4_reward_in_unit_interval_witness :
    ∃ r, step demoEnv 2 = some r ∧ ∀ x ∈ r.reward, 0 ≤ x ∧ x ≤ 1 := by
  refine ⟨(step demoEnv 2).get (by decide), (Option.some_get _).symm, ?_⟩
  refine c4_reward_in_unit_interval demoEnv 2 _ (Option.some_get _).symm ?_ ?_
  · intro g hgmem
    simp only [demoEnv, demoCity, List.mem_singleton] at hgmem
    subst hgmem
    refine ⟨?_, ?_⟩
    · intro x hx
      simp only [List.mem_cons, List.not_mem_nil, or_false] at hx
      rcases hx with rfl | rfl | rfl <;> norm_num
    · simp only [List.sum_cons, List.sum_nil]
      norm_num
  · intro seg y hy
    simp only [demoEnv, demoCity, List.mem_cons, List.not_mem_nil, or_false] at hy
    rcases hy with rfl | rfl | rfl
    · exact Or.inr rfl
    · exact Or.inl rfl
    · exact Or.inr rfl

end MOTNDP
